import Mathlib

/-!
# ByeCal — verification of the `app.py` domain logic

A shallow embedding of the health-tracking application `src/app.py`
(Flask/SQLAlchemy).  Python floats are modelled as exact rationals (`ℚ`),
Python's `round` (banker's rounding, half-to-even) is modelled explicitly,
database rows are Lean structures, query result sets are lists, and each
request handler becomes a pure function threading the relevant table as
explicit state.  Fallible handler bodies return `Except`/sum types.
-/

namespace ByeCal

/-- Python's built-in `round(x)`: round half to even (banker's rounding),
returning an integer. -/
def pythonRound (q : ℚ) : ℤ :=
  if q - ⌊q⌋ < 1/2 then ⌊q⌋
  else if 1/2 < q - ⌊q⌋ then ⌊q⌋ + 1
  else if ⌊q⌋ % 2 = 0 then ⌊q⌋ else ⌊q⌋ + 1

/-- Python's `str.lower()` (restricted to the ASCII range, which covers every
string the program compares). -/
def pyLower (s : String) : String := String.mk (s.data.map Char.toLower)

/-- Python's `str.strip()`: drop leading and trailing whitespace. -/
def pyStrip (s : String) : String :=
  String.mk (((s.data.dropWhile Char.isWhitespace).reverse.dropWhile
    Char.isWhitespace).reverse)

/-- Python's `round(x, 2)`: round to two decimal places, half to even. -/
def pythonRound2 (q : ℚ) : ℚ :=
  (pythonRound (q * 100) : ℚ) / 100

/-- `clasificar_imc` (app.py lines 86–94): BMI classification by fixed
thresholds.  Returns the Spanish label strings the code uses
("Bajo peso" = UnderWeight, "Peso normal" = Normal, "Sobrepeso" = OverWeight,
"Obesidad" = Obese). -/
def clasificar_imc (imc : ℚ) : String :=
  if imc < 18.5 then "Bajo peso"
  else if 18.5 ≤ imc ∧ imc < 25 then "Peso normal"
  else if 25 ≤ imc ∧ imc < 30 then "Sobrepeso"
  else "Obesidad"

/-- A calendar date, as produced by `datetime.strptime(s, '%Y-%m-%d').date()`. -/
structure PyDate where
  year : ℕ
  month : ℕ
  day : ℕ
deriving DecidableEq, Repr

/-- A timezone-naive timestamp (`db.DateTime`): a calendar day (as a day
number) plus a time of day.  `db.func.date` extracts the `day` component. -/
structure PyDateTime where
  day : ℤ
  tod : ℕ
deriving DecidableEq, Repr

/-- The `User` model (app.py lines 20–37).  `password` stores the bcrypt
hash, never the plaintext.  `objetivo` is nullable; `actividad` is a
non-null string (Python's `or`-defaulting treats `""` like `None`). -/
structure User where
  id : ℕ
  nombre : String
  fecha_nacimiento : PyDate
  sexo : String
  objetivo : Option String
  actividad : String
  correo : String
  password : String
deriving DecidableEq, Repr

/-- The `RegistroIMC` model (app.py lines 40–50): an immutable body-metric
record. -/
structure RegistroIMC where
  altura : ℚ
  peso : ℚ
  imc : ℚ
  clasificacion : String
  calorias : ℤ
  user_id : ℕ
deriving DecidableEq, Repr

/-- The `Alimento` model (app.py lines 53–62): a looked-up food item owned
by a user. -/
structure Alimento where
  id : ℤ
  nombre : String
  calorias : ℚ
  proteinas : ℚ
  grasas : ℚ
  carbohidratos : ℚ
  user_id : ℕ
deriving DecidableEq, Repr

/-- The `Consumo` model (app.py lines 65–79): a consumption entry holding a
snapshot of the food's nutrient fields at logging time. -/
structure Consumo where
  id : ℕ
  fecha_hora : PyDateTime
  porcion : String
  nombre : String
  calorias : ℚ
  proteinas : ℚ
  grasas : ℚ
  carbohidratos : ℚ
  user_id : ℕ
deriving DecidableEq, Repr

/-- `calcular_calorias` (app.py lines 106–147): Mifflin–St Jeor daily
calories, adjusted by activity level and goal.  `user.sexo or ""`,
`user.actividad or "sedentario"` and `user.objetivo or ""` follow Python
truthiness (`None` and `""` are falsy); the dictionary lookup with default
1.2 becomes a chain of string comparisons. -/
def calcular_calorias (user : User) (edad : ℤ) (peso altura_m : ℚ) : ℤ :=
  let altura_cm : ℚ := altura_m * 100
  let sexo := pyLower (pyStrip user.sexo)
  let tmb : ℚ :=
    if sexo = "masculino" ∨ sexo = "m" then
      10 * peso + 6.25 * altura_cm - 5 * edad + 5
    else
      10 * peso + 6.25 * altura_cm - 5 * edad - 161
  let actividad_key :=
    pyLower (pyStrip (if user.actividad = "" then "sedentario" else user.actividad))
  let factor : ℚ :=
    if actividad_key = "sedentario" then 1.2
    else if actividad_key = "ligero" then 1.375
    else if actividad_key = "moderado" then 1.55
    else if actividad_key = "intenso" then 1.725
    else if actividad_key = "muy intenso" then 1.9
    else 1.2
  let mantenimiento := tmb * factor
  let objetivo := pyLower (pyStrip (user.objetivo.getD ""))
  if objetivo = "ganar peso" then pythonRound (mantenimiento + 500)
  else if objetivo = "perder peso" then pythonRound (mantenimiento - 500)
  else pythonRound mantenimiento

/-! ## Spec-side companions (for the refinement claim C1)

The following definitions transcribe the claim's own wording for
`estimateDailyCalories`, to be compared with `calcular_calorias` above.
The spec names the domain values in English; in the program the stored
values are Spanish (`register.html` options), so the spec's "male" is the
code's `"masculino"`/`"m"`, "sedentary … very-intense" are
`"sedentario"`, `"ligero"`, `"moderado"`, `"intenso"`, `"muy intenso"`,
and "gain weight"/"lose weight" are `"ganar peso"`/`"perder peso"`. -/

/-- Spec: basal rate `10*w + 6.25*(h*100) - 5*age + 5` when the user's sex
is male, else `10*w + 6.25*(h*100) - 5*age - 161`. -/
def specBasal (sexo : String) (age : ℤ) (w h : ℚ) : ℚ :=
  if pyLower (pyStrip sexo) = "masculino" ∨ pyLower (pyStrip sexo) = "m" then
    10 * w + 6.25 * (h * 100) - 5 * age + 5
  else
    10 * w + 6.25 * (h * 100) - 5 * age - 161

/-- Spec: activity factor looked up case-insensitively from the activity
level, `1.2` for any unrecognized level. -/
def specActivityFactor (actividad : String) : ℚ :=
  let key := pyLower (pyStrip actividad)
  if key = "sedentario" then 1.2
  else if key = "ligero" then 1.375
  else if key = "moderado" then 1.55
  else if key = "intenso" then 1.725
  else if key = "muy intenso" then 1.9
  else 1.2

/-- Spec: goal "gain weight" adds 500, "lose weight" subtracts 500, any
other goal (including unset) leaves the maintenance value unchanged. -/
def specGoalAdjust (objetivo : Option String) : ℤ :=
  let g := pyLower (pyStrip (objetivo.getD ""))
  if g = "ganar peso" then 500
  else if g = "perder peso" then -500
  else 0

/-- Spec: `estimateDailyCalories` returns `round(basal * factor)` adjusted
by goal. -/
def specEstimateDailyCalories (sexo : String) (actividad : String)
    (objetivo : Option String) (age : ℤ) (w h : ℚ) : ℤ :=
  pythonRound (specBasal sexo age w h * specActivityFactor actividad)
    + specGoalAdjust objetivo

/-! ## Request/response plumbing -/

/-- The observable outcome of a request handler. -/
inductive Response where
  | redirect (target : String)
  | jsonError (status : ℕ) (message : String)
  | jsonSuccess (message : String)
deriving DecidableEq, Repr

/-- An uncaught Python exception escaping a handler. -/
inductive PyError where
  | keyError
deriving DecidableEq, Repr

/-- `login_required` (app.py lines 96–104): the decorator wrapping
protected routes.  With no `user_id` in the session it redirects to the
login page without invoking the view function; otherwise it passes the
session's user id through. -/
def login_required {σ : Type} (view_func : ℕ → σ → Response × σ)
    (sess : Option ℕ) (st : σ) : Response × σ :=
  match sess with
  | none => (Response.redirect "login", st)
  | some uid => view_func uid st

/-! ## `calculadora` (app.py lines 220–286), BMI branch -/

/-- The `resultado` value of the `calculadora` view. -/
inductive CalcResultado where
  | ok (imc : ℚ) (clasificacion : String) (calorias : ℤ)
  | error (msg : String)
deriving DecidableEq, Repr

/-- The POST branch of `calculadora` handling an altura/peso submission
(app.py lines 232–257 and the `except` at 273–274).  Dividing by
`altura ** 2` raises `ZeroDivisionError` exactly when `altura = 0`; the
`except` clause catches it, produces an error `resultado`, and the
`db.session.add`/`commit` pair is never reached, so the table of
`RegistroIMC` rows is returned unchanged.  Otherwise the computed record
is appended. -/
def calculadora_post_imc (user : User) (edad : ℤ) (altura peso : ℚ)
    (registros : List RegistroIMC) : CalcResultado × List RegistroIMC :=
  if altura ^ 2 = 0 then
    (CalcResultado.error "Error al calcular IMC: division by zero", registros)
  else
    let imc := pythonRound2 (peso / altura ^ 2)
    let clasificacion := clasificar_imc imc
    let calorias := calcular_calorias user edad peso altura
    (CalcResultado.ok imc clasificacion calorias,
      registros ++ [{ altura := altura, peso := peso, imc := imc,
                      clasificacion := clasificacion, calorias := calorias,
                      user_id := user.id }])

/-! ## `agregar_alimentos` (app.py lines 349–377), daily-calories query -/

/-- SQL `SUM(...)` followed by `.scalar()`: `NULL` (`none`) over an empty
row set, the sum otherwise. -/
def sqlSum (l : List ℚ) : Option ℚ :=
  if l.isEmpty then none else some l.sum

/-- The `calorias_consumidas` query of `agregar_alimentos` (app.py lines
366–370): sum of `Consumo.calorias` over the user's rows whose
`date(fecha_hora)` equals today's date, with `scalar() or 0` turning an
empty result into 0. -/
def calorias_consumidas (consumos : List Consumo) (user_id : ℕ) (hoy : ℤ) : ℚ :=
  (sqlSum ((consumos.filter
      (fun c => c.user_id == user_id && c.fecha_hora.day == hoy)).map
    (fun c => c.calorias))).getD 0

/-! ## `agregar_consumo` (app.py lines 383–418) -/

/-- The `agregar_consumo` handler body (after `login_required` has
resolved `uid`).  `request.form.get('alimento_id', type=int)` yields
`none` for a missing or non-numeric field; Python's `if not alimento_id`
also treats the integer 0 as missing.  `porcion or '100 g'` defaults both
a missing and an empty portion.  A lookup miss returns the 404 JSON error
and leaves the `Consumo` table unchanged; a hit appends a snapshot row
stamped `datetime.utcnow()`. -/
def agregar_consumo (uid : ℕ) (alimentos : List Alimento) (consumos : List Consumo)
    (alimento_id : Option ℤ) (porcion_form : Option String) (now : PyDateTime)
    (new_id : ℕ) : Response × List Consumo :=
  let porcion := match porcion_form with
    | none => "100 g"
    | some p => if p = "" then "100 g" else p
  match alimento_id with
  | none => (Response.jsonError 400 "No se seleccionó alimento", consumos)
  | some fid =>
    if fid = 0 then (Response.jsonError 400 "No se seleccionó alimento", consumos)
    else
      match alimentos.find? (fun a => a.id == fid && a.user_id == uid) with
      | none => (Response.jsonError 404 "Alimento no encontrado", consumos)
      | some alimento =>
        (Response.jsonSuccess (alimento.nombre ++ " agregado con éxito"),
          consumos ++ [{ id := new_id, fecha_hora := now, porcion := porcion,
                         nombre := alimento.nombre, calorias := alimento.calorias,
                         proteinas := alimento.proteinas, grasas := alimento.grasas,
                         carbohidratos := alimento.carbohidratos, user_id := uid }])

/-! ## `eliminar_consumo` (app.py lines 336–347) -/

/-- The `eliminar_consumo` route.  It carries no `@login_required`
decorator: it reads `session["user_id"]` directly, which raises an
uncaught `KeyError` when no session is present.  With a session, a row
owned by the user and matching the id is deleted; otherwise the handler
silently redirects. -/
def eliminar_consumo (sess : Option ℕ) (consumo_id : ℕ) (consumos : List Consumo) :
    Except PyError (Response × List Consumo) :=
  match sess with
  | none => Except.error PyError.keyError
  | some uid =>
    match consumos.find? (fun c => c.id == consumo_id && c.user_id == uid) with
    | none => Except.ok (Response.redirect "agregar_alimentos", consumos)
    | some consumo =>
      Except.ok (Response.redirect "agregar_alimentos",
        consumos.filter (fun c => c.id != consumo.id))

/-! ## `login` (app.py lines 160–173) -/

/-- The outcome of a POST to `login`. -/
inductive LoginResult where
  | success (user_id : ℕ)
  | failure (error : String)
deriving DecidableEq, Repr

/-- The POST branch of `login`.  The bcrypt verifier is the external
hashing collaborator, passed in as `check_password_hash`.  The email is
stripped and lowercased before lookup; `if user and check(...)` succeeds
only when a user with that email exists and the password verifies, and
any mismatch falls into the single generic error branch. -/
def login_post (users : List User) (check_password_hash : String → String → Bool)
    (correo_form password : String) : LoginResult :=
  let correo := pyLower (pyStrip correo_form)
  match users.find? (fun u => u.correo == correo) with
  | some user =>
    if check_password_hash user.password password then LoginResult.success user.id
    else LoginResult.failure "Correo o contraseña incorrectos."
  | none => LoginResult.failure "Correo o contraseña incorrectos."

/-! ## `register` (app.py lines 176–216) -/

def isLeapYear (y : ℕ) : Bool :=
  (y % 4 == 0 && y % 100 != 0) || (y % 400 == 0)

def daysInMonth (y m : ℕ) : ℕ :=
  if m = 2 then (if isLeapYear y then 29 else 28)
  else if m = 4 ∨ m = 6 ∨ m = 9 ∨ m = 11 then 30
  else 31

/-- Split a character list at every dash. -/
def splitOnDash : List Char → List (List Char)
  | [] => [[]]
  | c :: rest =>
    if c = '-' then [] :: splitOnDash rest
    else
      match splitOnDash rest with
      | [] => [[c]]
      | h :: t => (c :: h) :: t

/-- Read a non-empty run of decimal digits as a number. -/
def digitsToNatAux : List Char → ℕ → Option ℕ
  | [], acc => some acc
  | c :: rest, acc =>
    if c.isDigit then digitsToNatAux rest (acc * 10 + (c.toNat - 48)) else none

def digitsToNat? (l : List Char) : Option ℕ :=
  if l.isEmpty then none else digitsToNatAux l 0

/-- `datetime.strptime(s, '%Y-%m-%d').date()`: a dash-separated triple of
digit runs (year up to 4 digits, month and day up to 2) forming a valid
calendar date; anything else raises `ValueError` (`none` here). -/
def parseDateYMD (s : String) : Option PyDate :=
  match splitOnDash s.data with
  | [ys, ms, ds] =>
    if ys.length ≤ 4 && ms.length ≤ 2 && ds.length ≤ 2 then
      match digitsToNat? ys, digitsToNat? ms, digitsToNat? ds with
      | some y, some m, some d =>
        if 1 ≤ m ∧ m ≤ 12 ∧ 1 ≤ d ∧ d ≤ daysInMonth y m then
          some { year := y, month := m, day := d }
        else none
      | _, _, _ => none
    else none
  | _ => none

/-- The outcome of a POST to `register`. -/
inductive RegisterResult where
  | error (msg : String)
  | redirectLogin
deriving DecidableEq, Repr

/-- The POST branch of `register` (app.py lines 179–216).  Field order is
the source's: the missing-field check (`if not all([...])`) first, then
the duplicate-email lookup, then `strptime` date parsing (its
`ValueError` is caught as the invalid-date message), and only then is the
user row created with the bcrypt-hashed password.  The email is stripped
and lowercased before both the uniqueness check and storage; `objetivo`
is stripped with `or None` defaulting. -/
def register_post (users : List User) (generate_password_hash : String → String)
    (nombre_form fecha_form sexo_form objetivo_form actividad_form correo_form
      password : String) (new_id : ℕ) : RegisterResult × List User :=
  let nombre := pyStrip nombre_form
  let fecha_nacimiento_str := pyStrip fecha_form
  let sexo := pyStrip sexo_form
  let objetivo := if pyStrip objetivo_form = "" then none else some (pyStrip objetivo_form)
  let actividad := pyStrip actividad_form
  let correo := pyLower (pyStrip correo_form)
  if nombre = "" ∨ fecha_nacimiento_str = "" ∨ sexo = "" ∨ correo = ""
      ∨ password = "" ∨ actividad = "" then
    (RegisterResult.error "Completa todos los campos obligatorios.", users)
  else if (users.find? (fun u => u.correo == correo)).isSome then
    (RegisterResult.error "Ya existe una cuenta con ese correo.", users)
  else
    match parseDateYMD fecha_nacimiento_str with
    | none => (RegisterResult.error "Formato de fecha inválido. Usa AAAA-MM-DD.", users)
    | some fecha_nacimiento =>
      (RegisterResult.redirectLogin,
        users ++ [{ id := new_id, nombre := nombre,
                    fecha_nacimiento := fecha_nacimiento, sexo := sexo,
                    objetivo := objetivo, actividad := actividad, correo := correo,
                    password := generate_password_hash password }])

/-! ## Concrete demo data (used by witnesses and counterexamples) -/

/-- A concrete registered user for concrete evaluations. -/
def demoUser : User :=
  { id := 1, nombre := "Ana", fecha_nacimiento := { year := 1995, month := 6, day := 15 },
    sexo := "Femenino", objetivo := some "Mantener peso", actividad := "Sedentario",
    correo := "ana@example.com", password := "hashed-secret" }

/-- A concrete food item owned by `demoUser`. -/
def demoAlimento : Alimento :=
  { id := 7, nombre := "Manzana", calorias := 52, proteinas := 0.3, grasas := 0.2,
    carbohidratos := 14, user_id := 1 }

/-- A concrete food item owned by a different user (id 2). -/
def otherAlimento : Alimento :=
  { id := 8, nombre := "Pan", calorias := 265, proteinas := 9, grasas := 3.2,
    carbohidratos := 49, user_id := 2 }

/-- Concrete consumption entries spread over two days and two users:
entries 1 and 2 belong to user 1 on days 100 and 101, entry 3 belongs to
user 2 on day 100. -/
def demoConsumos : List Consumo :=
  [{ id := 1, fecha_hora := { day := 100, tod := 32400 }, porcion := "100 g",
     nombre := "Manzana", calorias := 52, proteinas := 0.3, grasas := 0.2,
     carbohidratos := 14, user_id := 1 },
   { id := 2, fecha_hora := { day := 101, tod := 43200 }, porcion := "100 g",
     nombre := "Pan", calorias := 265, proteinas := 9, grasas := 3.2,
     carbohidratos := 49, user_id := 1 },
   { id := 3, fecha_hora := { day := 100, tod := 50000 }, porcion := "100 g",
     nombre := "Arroz", calorias := 130, proteinas := 2.7, grasas := 0.3,
     carbohidratos := 28, user_id := 2 }]

/-! ## Rounding lemmas -/

/-- Banker's rounding commutes with adding an even integer (the fractional
part and the tie-parity are unchanged). -/
theorem pythonRound_add_int_even (q : ℚ) (n : ℤ) (hn : n % 2 = 0) :
    pythonRound (q + (n : ℚ)) = pythonRound q + n := by
  unfold pythonRound
  rw [Int.floor_add_int]
  have h2 : q + (n : ℚ) - ((⌊q⌋ + n : ℤ) : ℚ) = q - ((⌊q⌋ : ℤ) : ℚ) := by
    push_cast; ring
  rw [h2]
  split_ifs with h3 h4 h5 h6 <;> omega

theorem pythonRound_add_500 (q : ℚ) : pythonRound (q + 500) = pythonRound q + 500 := by
  have h := pythonRound_add_int_even q 500 (by decide)
  norm_num at h
  exact h

theorem pythonRound_sub_500 (q : ℚ) : pythonRound (q - 500) = pythonRound q - 500 := by
  have h := pythonRound_add_int_even q (-500) (by decide)
  norm_num [sub_eq_add_neg] at h ⊢
  exact h

/-! ## Claim theorems -/

/-- C1: for every user profile, age, weight and height,
`calcular_calorias` returns `round(basal * factor)` adjusted by goal, with
the basal rate determined by the user's sex, the activity factor looked up
case-insensitively (default 1.2 for unrecognized levels), and the goal
adding 500 ("ganar peso"), subtracting 500 ("perder peso") or leaving the
maintenance value unchanged. -/
theorem calcular_calorias_matches_spec (u : User) (edad : ℤ) (peso altura_m : ℚ) :
    calcular_calorias u edad peso altura_m
      = specEstimateDailyCalories u.sexo u.actividad u.objetivo edad peso altura_m := by
  simp only [calcular_calorias, specEstimateDailyCalories, specBasal,
    specActivityFactor, specGoalAdjust]
  have e1 : pyLower (pyStrip "sedentario") = "sedentario" := by decide
  have e2 : pyLower (pyStrip "") = "" := by decide
  by_cases ha : u.actividad = "" <;>
  by_cases hg1 : pyLower (pyStrip (u.objetivo.getD "")) = "ganar peso" <;>
  by_cases hg2 : pyLower (pyStrip (u.objetivo.getD "")) = "perder peso" <;>
  first
  | (exact absurd (hg1.symm.trans hg2) (by decide))
  | (simp [ha, e1, e2, hg1, hg2, pythonRound_add_500, pythonRound_sub_500] <;> omega)

/-- C2: `clasificar_imc` classifies a BMI value as "Bajo peso"
(UnderWeight) iff it is below 18.5, "Peso normal" (Normal) iff it lies in
[18.5, 25), "Sobrepeso" (OverWeight) iff it lies in [25, 30), and
"Obesidad" (Obese) iff it is at least 30; in particular the boundary
values 18.49, 18.5, 24.99, 25.0, 29.99 and 30.0 classify as stated. -/
theorem clasificar_imc_matches_spec (imc : ℚ) :
    (clasificar_imc imc = "Bajo peso" ↔ imc < 18.5)
    ∧ (clasificar_imc imc = "Peso normal" ↔ 18.5 ≤ imc ∧ imc < 25)
    ∧ (clasificar_imc imc = "Sobrepeso" ↔ 25 ≤ imc ∧ imc < 30)
    ∧ (clasificar_imc imc = "Obesidad" ↔ 30 ≤ imc)
    ∧ clasificar_imc 18.49 = "Bajo peso" ∧ clasificar_imc 18.5 = "Peso normal"
    ∧ clasificar_imc 24.99 = "Peso normal" ∧ clasificar_imc 25 = "Sobrepeso"
    ∧ clasificar_imc 29.99 = "Sobrepeso" ∧ clasificar_imc 30 = "Obesidad" := by
  refine ⟨?_, ?_, ?_, ?_, ?_, ?_, ?_, ?_, ?_, ?_⟩ <;>
    (unfold clasificar_imc; split_ifs with h1 h2 h3 <;> simp_all <;>
      first
      | linarith
      | (intro h; linarith))

/-- C3: for every weight `w > 0` and height `h > 0`, a BMI submission
computes and stores a `RegistroIMC` whose `imc` equals
`round(w / h^2, 2)`. -/
theorem calculadora_bmi_matches_spec (u : User) (edad : ℤ) (altura peso : ℚ)
    (registros : List RegistroIMC) (hh : 0 < altura) (hw : 0 < peso) :
    calculadora_post_imc u edad altura peso registros
      = (CalcResultado.ok (pythonRound2 (peso / altura ^ 2))
           (clasificar_imc (pythonRound2 (peso / altura ^ 2)))
           (calcular_calorias u edad peso altura),
         registros ++ [{ altura := altura, peso := peso,
                         imc := pythonRound2 (peso / altura ^ 2),
                         clasificacion := clasificar_imc (pythonRound2 (peso / altura ^ 2)),
                         calorias := calcular_calorias u edad peso altura,
                         user_id := u.id }]) := by
  have h : ¬ (altura ^ 2 = 0) := pow_ne_zero 2 (ne_of_gt hh)
  simp [calculadora_post_imc, h]

/-- Witness for C3 at height 1.75 m and weight 70 kg:
`70 / 1.75² = 22.857…` rounds to 22.86 and the record is stored. -/
theorem calculadora_bmi_matches_spec_witness :
    calculadora_post_imc demoUser 30 1.75 70 []
      = (CalcResultado.ok 22.86 "Peso normal" 1779,
         [{ altura := 1.75, peso := 70, imc := 22.86, clasificacion := "Peso normal",
            calorias := 1779, user_id := 1 }]) := by
  have h := calculadora_bmi_matches_spec demoUser 30 1.75 70 [] (by norm_num) (by norm_num)
  rw [h]
  have himc : pythonRound2 ((70 : ℚ) / 1.75 ^ 2) = 22.86 := by
    norm_num [pythonRound2, pythonRound]
  have hclas : clasificar_imc 22.86 = "Peso normal" := by
    norm_num [clasificar_imc]
  have hcal : calcular_calorias demoUser 30 70 1.75 = 1779 := by
    have s1 : pyLower (pyStrip "Femenino") = "femenino" := by decide
    have s2 : pyLower (pyStrip "Sedentario") = "sedentario" := by decide
    have s3 : pyLower (pyStrip "Mantener peso") = "mantener peso" := by decide
    simp [calcular_calorias, demoUser, s1, s2, s3]
    norm_num [pythonRound]
  rw [himc, hclas, hcal]
  simp [demoUser]

/-- C4 counterexample: a submission with height −2 (not `> 0`) is not
rejected — the code squares the height, computes a BMI and creates a
`RegistroIMC`, contradicting the claim that no record is created. -/
theorem calculadora_negative_height_counterexample :
    ¬ ((0 : ℚ) < -2)
    ∧ ((calculadora_post_imc demoUser 30 (-2) 80 []).2).length = 1 := by
  constructor
  · norm_num
  · have h : ¬ ((-2 : ℚ) ^ 2 = 0) := by norm_num
    simp [calculadora_post_imc, h]

/-- C4 (amended): only a BMI submission with height exactly 0 fails — the
`ZeroDivisionError` is caught, an error result is produced and no
`RegistroIMC` is created; for any nonzero height (including negative
ones) no error is reported and a record is created. -/
theorem calculadora_invalid_height_spec (u : User) (edad : ℤ) (altura peso : ℚ)
    (registros : List RegistroIMC) :
    (altura = 0 →
      calculadora_post_imc u edad altura peso registros
        = (CalcResultado.error "Error al calcular IMC: division by zero", registros))
    ∧ (altura ≠ 0 →
      (calculadora_post_imc u edad altura peso registros).1
        ≠ CalcResultado.error "Error al calcular IMC: division by zero"
      ∧ ((calculadora_post_imc u edad altura peso registros).2).length
        = registros.length + 1) := by
  constructor
  · intro h
    subst h
    simp [calculadora_post_imc]
  · intro h
    have h2 : ¬ (altura ^ 2 = 0) := pow_ne_zero 2 h
    simp [calculadora_post_imc, h2]

/-- Witness for amended C4: height 0 errors without storing, height −2
stores a record. -/
theorem calculadora_invalid_height_spec_witness :
    calculadora_post_imc demoUser 30 0 80 []
      = (CalcResultado.error "Error al calcular IMC: division by zero", [])
    ∧ ((calculadora_post_imc demoUser 30 (-2) 80 []).2).length = 1 := by
  refine ⟨(calculadora_invalid_height_spec demoUser 30 0 80 []).1 rfl, ?_⟩
  exact ((calculadora_invalid_height_spec demoUser 30 (-2) 80 []).2 (by norm_num)).2

/-- A SQL `SUM … scalar() or 0` over a list equals the plain list sum. -/
theorem sqlSum_getD (l : List ℚ) : (sqlSum l).getD 0 = l.sum := by
  unfold sqlSum
  split_ifs with h
  · rw [List.isEmpty_iff] at h
    simp [h]
  · rfl

/-- Summing a projection over a filtered list equals summing the
indicator-guarded projection over the whole list. -/
theorem filter_map_sum_indicator (p : Consumo → Bool) (f : Consumo → ℚ)
    (l : List Consumo) :
    ((l.filter p).map f).sum = (l.map (fun c => if p c then f c else 0)).sum := by
  induction l with
  | nil => rfl
  | cons c cs ih =>
    by_cases h : p c <;> simp [List.filter_cons, h, ih]

/-- C5: the daily-consumed-calories query sums the `calorias` field of
exactly those `Consumo` rows owned by the user whose timestamp's date
portion equals the queried day — every other row contributes 0 — and it
returns 0 when no such row exists. -/
theorem calorias_consumidas_matches_spec (consumos : List Consumo) (user_id : ℕ)
    (hoy : ℤ) :
    calorias_consumidas consumos user_id hoy
      = (consumos.map (fun c =>
          if c.user_id = user_id ∧ c.fecha_hora.day = hoy then c.calorias else 0)).sum
    ∧ ((∀ c ∈ consumos, ¬ (c.user_id = user_id ∧ c.fecha_hora.day = hoy)) →
        calorias_consumidas consumos user_id hoy = 0) := by
  have h1 : calorias_consumidas consumos user_id hoy
      = (consumos.map (fun c =>
          if c.user_id = user_id ∧ c.fecha_hora.day = hoy then c.calorias else 0)).sum := by
    unfold calorias_consumidas
    rw [sqlSum_getD, filter_map_sum_indicator]
    congr 1
    apply List.map_congr_left
    intro c _
    by_cases hu : c.user_id = user_id <;> by_cases hd : c.fecha_hora.day = hoy <;>
      simp [hu, hd]
  refine ⟨h1, fun hnone => ?_⟩
  rw [h1]
  apply List.sum_eq_zero
  intro x hx
  rw [List.mem_map] at hx
  obtain ⟨c, hc, hcx⟩ := hx
  rw [if_neg (hnone c hc)] at hcx
  exact hcx.symm

/-- Witness for C5 over a history spanning two days and two users: only
user 1's day-100 entry (52 kcal) is counted, and a day with no entries
sums to 0. -/
theorem calorias_consumidas_matches_spec_witness :
    calorias_consumidas demoConsumos 1 100 = 52
    ∧ calorias_consumidas demoConsumos 2 999 = 0 := by
  constructor
  · refine (calorias_consumidas_matches_spec demoConsumos 1 100).1.trans ?_
    norm_num [demoConsumos]
  · exact (calorias_consumidas_matches_spec demoConsumos 2 999).2 (by decide)

/-- C6 counterexample: the nonexistent food id 0 does not produce the
FoodNotFound (404) error — Python's `if not alimento_id` treats 0 as "no
food selected" and answers with the 400 error instead (though still
creating no entry). -/
theorem agregar_consumo_zero_id_counterexample :
    List.find? (fun a => a.id == 0 && a.user_id == 1) [demoAlimento, otherAlimento] = none
    ∧ agregar_consumo 1 [demoAlimento, otherAlimento] demoConsumos (some 0) none
        { day := 102, tod := 0 } 9
      = (Response.jsonError 400 "No se seleccionó alimento", demoConsumos)
    ∧ Response.jsonError 400 "No se seleccionó alimento"
      ≠ Response.jsonError 404 "Alimento no encontrado" := by
  refine ⟨rfl, rfl, ?_⟩
  decide

/-- C6 (amended): a consumption-logging request whose nonzero
`alimento_id` references no `Alimento` owned by the requesting user
(another user's item or a nonexistent id) fails with the FoodNotFound
404 error and creates no `Consumo` row; an id of 0 or a missing id is
instead reported as "no food selected" (400), likewise creating no row. -/
theorem agregar_consumo_not_owned_spec (uid : ℕ) (alimentos : List Alimento)
    (consumos : List Consumo) (fid : ℤ) (porcion_form : Option String)
    (now : PyDateTime) (new_id : ℕ)
    (hfid : fid ≠ 0)
    (h : ∀ a ∈ alimentos, ¬ (a.id = fid ∧ a.user_id = uid)) :
    agregar_consumo uid alimentos consumos (some fid) porcion_form now new_id
      = (Response.jsonError 404 "Alimento no encontrado", consumos)
    ∧ agregar_consumo uid alimentos consumos (some 0) porcion_form now new_id
      = (Response.jsonError 400 "No se seleccionó alimento", consumos)
    ∧ agregar_consumo uid alimentos consumos none porcion_form now new_id
      = (Response.jsonError 400 "No se seleccionó alimento", consumos) := by
  have hfind : alimentos.find? (fun a => a.id == fid && a.user_id == uid) = none := by
    rw [List.find?_eq_none]
    intro a ha
    simp only [Bool.and_eq_true, beq_iff_eq]
    exact fun hc => h a ha hc
  refine ⟨?_, ?_, ?_⟩ <;> simp [agregar_consumo, hfind, hfid]

/-- Witness for amended C6: logging food id 8 — owned by user 2 — as
user 1 yields the 404 error and leaves the entries unchanged. -/
theorem agregar_consumo_not_owned_spec_witness :
    agregar_consumo 1 [demoAlimento, otherAlimento] demoConsumos (some 8) none
        { day := 102, tod := 0 } 9
      = (Response.jsonError 404 "Alimento no encontrado", demoConsumos) :=
  (agregar_consumo_not_owned_spec 1 [demoAlimento, otherAlimento] demoConsumos 8 none
    { day := 102, tod := 0 } 9 (by decide) (by decide)).1

/-- C7: a login with a registered email whose password fails verification
and a login with an unregistered email both return the identical generic
`InvalidCredentials` error ("Correo o contraseña incorrectos."), for any
user table and any password verifier. -/
theorem login_failure_indistinguishable (users : List User)
    (check : String → String → Bool) (e1 p1 e2 p2 : String) (u0 : User)
    (h1 : users.find? (fun u => u.correo == pyLower (pyStrip e1)) = some u0)
    (hwrong : check u0.password p1 = false)
    (h2 : users.find? (fun u => u.correo == pyLower (pyStrip e2)) = none) :
    login_post users check e1 p1
      = LoginResult.failure "Correo o contraseña incorrectos."
    ∧ login_post users check e2 p2
      = LoginResult.failure "Correo o contraseña incorrectos."
    ∧ login_post users check e1 p1 = login_post users check e2 p2 := by
  have a1 : login_post users check e1 p1
      = LoginResult.failure "Correo o contraseña incorrectos." := by
    simp [login_post, h1, hwrong]
  have a2 : login_post users check e2 p2
      = LoginResult.failure "Correo o contraseña incorrectos." := by
    simp [login_post, h2]
  exact ⟨a1, a2, a1.trans a2.symm⟩

/-- Witness for C7: wrong password for the registered `ana@example.com`
(entered with extra case and spacing) and an unknown `bob@example.com`
produce the same failure value. -/
theorem login_failure_indistinguishable_witness :
    login_post [demoUser] (fun stored pw => stored == pw) " ANA@Example.com" "wrong"
      = LoginResult.failure "Correo o contraseña incorrectos."
    ∧ login_post [demoUser] (fun stored pw => stored == pw) "bob@example.com" "x"
      = LoginResult.failure "Correo o contraseña incorrectos." := by
  have h := login_failure_indistinguishable [demoUser] (fun stored pw => stored == pw)
    " ANA@Example.com" "wrong" "bob@example.com" "x" demoUser
    (by decide) (by decide) (by decide)
  exact ⟨h.1, h.2.1⟩

/-- C8: when a stored user's email equals the stripped, lowercased form
of a new registration's email (all required fields non-empty), the
registration fails with the DuplicateEmail error and the user table is
unchanged — emails differing only in case or surrounding whitespace
count as the same email. -/
theorem register_duplicate_email (users : List User) (hash : String → String)
    (nombre fecha sexo objetivo actividad correo password : String) (new_id : ℕ)
    (hnombre : pyStrip nombre ≠ "") (hfecha : pyStrip fecha ≠ "")
    (hsexo : pyStrip sexo ≠ "") (hact : pyStrip actividad ≠ "")
    (hcorreo : pyLower (pyStrip correo) ≠ "") (hpw : password ≠ "")
    (hdup : ∃ u ∈ users, u.correo = pyLower (pyStrip correo)) :
    register_post users hash nombre fecha sexo objetivo actividad correo password new_id
      = (RegisterResult.error "Ya existe una cuenta con ese correo.", users) := by
  have hfind : (users.find? (fun u => u.correo == pyLower (pyStrip correo))).isSome := by
    rw [List.find?_isSome]
    obtain ⟨u, hu, he⟩ := hdup
    exact ⟨u, hu, by simp [he]⟩
  simp [register_post, hnombre, hfecha, hsexo, hact, hcorreo, hpw, hfind]

/-- Witness for C8: re-registering `" ANA@example.com"` against the
stored `"ana@example.com"` fails with DuplicateEmail and adds no user. -/
theorem register_duplicate_email_witness :
    register_post [demoUser] (fun pw => pw ++ "-hashed") "Bob" "2001-02-03" "Masculino"
        "" "Ligero" " ANA@example.com" "pw" 2
      = (RegisterResult.error "Ya existe una cuenta con ese correo.", [demoUser]) :=
  register_duplicate_email [demoUser] (fun pw => pw ++ "-hashed") "Bob" "2001-02-03"
    "Masculino" "" "Ligero" " ANA@example.com" "pw" 2
    (by decide) (by decide) (by decide) (by decide) (by decide) (by decide) (by decide)

/-- C9: the decorated protected endpoints redirect a session-less request
to the login page with no state change, but `eliminar_consumo` lacks the
`login_required` decorator and raises an uncaught `KeyError` reading
`session["user_id"]` — the code bug the claim's redirect guarantee
exposes. -/
theorem protected_routes_redirect_but_eliminar_consumo_crashes :
    (∀ (σ : Type) (view_func : ℕ → σ → Response × σ) (st : σ),
        login_required view_func none st = (Response.redirect "login", st))
    ∧ (∀ (consumo_id : ℕ) (consumos : List Consumo),
        eliminar_consumo none consumo_id consumos = Except.error PyError.keyError) :=
  ⟨fun _ _ _ => rfl, fun _ _ => rfl⟩

/-- C10: `register` checks the duplicate email before parsing the birth
date — a registration whose email duplicates a stored user and whose
birth date is malformed (all fields non-empty) yields the DuplicateEmail
error, not the InvalidDate one, and creates no user. -/
theorem register_checks_duplicate_before_date (users : List User)
    (hash : String → String)
    (nombre fecha sexo objetivo actividad correo password : String) (new_id : ℕ)
    (hnombre : pyStrip nombre ≠ "") (hfecha : pyStrip fecha ≠ "")
    (hsexo : pyStrip sexo ≠ "") (hact : pyStrip actividad ≠ "")
    (hcorreo : pyLower (pyStrip correo) ≠ "") (hpw : password ≠ "")
    (hbad : parseDateYMD (pyStrip fecha) = none)
    (hdup : ∃ u ∈ users, u.correo = pyLower (pyStrip correo)) :
    (register_post users hash nombre fecha sexo objetivo actividad correo password
        new_id).1
      = RegisterResult.error "Ya existe una cuenta con ese correo."
    ∧ (register_post users hash nombre fecha sexo objetivo actividad correo password
        new_id).1
      ≠ RegisterResult.error "Formato de fecha inválido. Usa AAAA-MM-DD."
    ∧ (register_post users hash nombre fecha sexo objetivo actividad correo password
        new_id).2
      = users := by
  have hfind : (users.find? (fun u => u.correo == pyLower (pyStrip correo))).isSome := by
    rw [List.find?_isSome]
    obtain ⟨u, hu, he⟩ := hdup
    exact ⟨u, hu, by simp [he]⟩
  refine ⟨?_, ?_, ?_⟩ <;>
    simp [register_post, hnombre, hfecha, hsexo, hact, hcorreo, hpw, hfind]

/-- Witness for C10: duplicate email plus the malformed birth date
`"fecha-mala"` still reports DuplicateEmail and stores nothing. -/
theorem register_checks_duplicate_before_date_witness :
    (register_post [demoUser] (fun pw => pw ++ "-hashed") "Bob" "fecha-mala" "Masculino"
        "" "Ligero" " ANA@example.com" "pw" 2).1
      = RegisterResult.error "Ya existe una cuenta con ese correo."
    ∧ (register_post [demoUser] (fun pw => pw ++ "-hashed") "Bob" "fecha-mala" "Masculino"
        "" "Ligero" " ANA@example.com" "pw" 2).2
      = [demoUser] := by
  have h := register_checks_duplicate_before_date [demoUser] (fun pw => pw ++ "-hashed")
    "Bob" "fecha-mala" "Masculino" "" "Ligero" " ANA@example.com" "pw" 2
    (by decide) (by decide) (by decide) (by decide) (by decide) (by decide)
    (by decide) (by decide)
  exact ⟨h.1, h.2.2⟩

end ByeCal
